import Mathlib

/-!
Shallow embedding of the content-scoring pipeline of the serp-analyzer
repository (src/streamlit-app.py), together with theorems checking the
natural-language specification against it.

Python strings are modelled as `List Char`; Python floats as `ℚ` (the
arithmetic in the scorer is exact decimal arithmetic on small constants);
Python dict lookup as `Option`; a raised Python exception as the `error`
case of `Except String`.  External libraries (requests, BeautifulSoup,
nltk VADER, urllib.parse) are modelled as parameters of the orchestrator:
the transport is a stream of responses, the HTML parser is a function
from the body to a parsed node tree, the sentiment analyzer is a function
from text to the four VADER fields.
-/

/-- Python strings are modelled as lists of characters. -/
abbrev Str := List Char

/-- Conversion from Lean string literals to the model type. -/
def str (s : String) : Str := s.data

/-- Python `str.split()` whitespace (the ASCII whitespace characters). -/
def isPyWhitespace (c : Char) : Bool :=
  c = ' ' || c = '\t' || c = '\n' || c = '\r' || c = '\x0b' || c = '\x0c'

/-- Split a list at every character satisfying `p`, keeping empty segments:
the semantics of Python `str.split(sep)` for a one-character separator when
`p` is equality with that separator.  Always returns at least one segment. -/
def splitPred (p : Char → Bool) : Str → List Str
  | [] => [[]]
  | c :: rest =>
    let r := splitPred p rest
    if p c then [] :: r
    else
      match r with
      | [] => [[c]]
      | s :: ss => (c :: s) :: ss

/-- Python `text.split('.')`: split on `'.'`, keeping empty segments. -/
def splitDot (l : Str) : List Str := splitPred (fun c => c = '.') l

/-- Python `str.split()` with no argument: whitespace-delimited tokens,
empty tokens dropped. -/
def pyWords (l : Str) : List Str :=
  (splitPred isPyWhitespace l).filter (fun t => t ≠ [])

/-- Number of whitespace-delimited tokens, i.e. Python `len(text.split())`. -/
def pyWordCount (l : Str) : Nat := (pyWords l).length

/-- Python `' '.join(parts)`. -/
def joinSpace (parts : List Str) : Str := List.intercalate [' '] parts

/-- Python `str.strip()`: drop leading and trailing whitespace. -/
def pyStrip (l : Str) : Str :=
  ((l.dropWhile isPyWhitespace).reverse.dropWhile isPyWhitespace).reverse

/-- Python `str.lower()` (ASCII case folding, which covers every character
the keyword lists and claims use). -/
def pyLower (l : Str) : Str := l.map Char.toLower

/-- Fuel-driven core of Python `str.count(sub)`: count non-overlapping
occurrences of `sub`, scanning left to right and skipping a whole match. -/
def countOccsAux (sub : Str) : Nat → Str → Nat
  | 0, _ => 0
  | _ + 1, [] => 0
  | fuel + 1, c :: rest =>
    if sub.isPrefixOf (c :: rest) then
      1 + countOccsAux sub fuel ((c :: rest).drop sub.length)
    else
      countOccsAux sub fuel rest

/-- Python `text.count(sub)` for non-empty `sub`: the number of
non-overlapping occurrences of `sub` in `text`. -/
def pyCount (sub text : Str) : Nat := countOccsAux sub (text.length + 1) text

/-- Python `sub in text` (substring containment). -/
def pyContains (sub text : Str) : Bool := 0 < pyCount sub text

/-- The four fields of an nltk VADER polarity result
(`sia.polarity_scores(text)`). -/
structure SentimentScores where
  compound : ℚ
  pos : ℚ
  neu : ℚ
  neg : ℚ
deriving Repr, DecidableEq

/-- The `keyword_analysis` sub-dictionary of an analysis result. -/
structure KeywordAnalysis where
  positive_count : Nat
  negative_count : Nat
  keyword_ratio : ℚ
deriving Repr, DecidableEq

/-- The `text_quality` sub-dictionary of an analysis result
(`avg_sentence_length`, `sentence_length_score`). -/
structure TextQuality where
  avg_sentence_length : ℚ
  sentence_length_score : ℚ
deriving Repr, DecidableEq

/-- `NEGATIVE_KEYWORDS` from src/streamlit-app.py: a dict keyed by
language code; lookup of a missing key is `none` (Python `KeyError`).
The Danish entries reproduce the file's literal characters. -/
def NEGATIVE_KEYWORDS (language : Str) : Option (List Str) :=
  if language = str "en" then
    some [str "error", str "mistake", str "failure", str "bad", str "wrong",
          str "poorly", str "negative", str "unfortunately", str "problem", str "issue"]
  else if language = str "da" then
    some [str "fejl", str "dÃ¥rlig", str "forkert", str "desvÃ¦rre", str "problem",
          str "negativt", str "ikke god", str "kritisk", str "utilfreds", str "mangel"]
  else none

/-- `POSITIVE_KEYWORDS` from src/streamlit-app.py. -/
def POSITIVE_KEYWORDS (language : Str) : Option (List Str) :=
  if language = str "en" then
    some [str "success", str "excellent", str "good", str "best", str "positive",
          str "perfect", str "recommend", str "great", str "innovative", str "impressive"]
  else if language = str "da" then
    some [str "succes", str "fremragende", str "god", str "bedste", str "positiv",
          str "perfekt", str "anbefale", str "fantastisk", str "innovativ", str "imponerende"]
  else none

/-- `ContentAnalyzer.count_keywords`: lowercase the text and sum the
occurrence counts of each (lowercased) keyword. -/
def count_keywords (text : Str) (keyword_list : List Str) : Nat :=
  let t := pyLower text
  (keyword_list.map (fun keyword => pyCount (pyLower keyword) t)).sum

/-- The first line of `ContentAnalyzer.analyze_text_quality`:
`sentences = text.split('.')`. -/
def sentencesOf (text : Str) : List Str := splitDot text

/-- `ContentAnalyzer.analyze_text_quality`: average whitespace-token count
per `'.'`-delimited segment (guarded against an empty segment list, as in
the source), then the three-bucket score: `<5 → 0.5`, `>40 → 0.7`,
otherwise `1.0`. -/
def analyze_text_quality (text : Str) : TextQuality :=
  let sentences := sentencesOf text
  let avg_sentence_length : ℚ :=
    if sentences ≠ [] then
      ((sentences.map (fun s => ((pyWordCount s : ℚ)))).sum) / (sentences.length : ℚ)
    else 0
  let sentence_length_score : ℚ :=
    if avg_sentence_length < 5 then 1/2
    else if avg_sentence_length > 40 then 7/10
    else 1
  ⟨avg_sentence_length, sentence_length_score⟩

/-- The full result dictionary of `ContentAnalyzer.analyze_content`. -/
structure ContentAnalysis where
  sentiment : SentimentScores
  keyword_analysis : KeywordAnalysis
  text_quality : TextQuality
  combined_score : ℚ
deriving Repr, DecidableEq

/-- Python `str(KeyError(key))`, the message of a failed dict lookup. -/
def keyErrorMsg (key : Str) : Str := '\'' :: key ++ ['\'']

/-- `ContentAnalyzer.analyze_content`: VADER sentiment, keyword counts for
the configured language (a missing language key raises `KeyError`), the
quality metrics, the keyword ratio, and the fixed-weight combined score
`compound·0.4 + keyword_ratio·0.4 + sentence_length_score·0.2`. -/
def analyze_content (sia : Str → SentimentScores) (language : Str)
    (text : Str) : Except Str ContentAnalysis :=
  let sentiment := sia text
  match NEGATIVE_KEYWORDS language with
  | none => .error (keyErrorMsg language)
  | some negList =>
    match POSITIVE_KEYWORDS language with
    | none => .error (keyErrorMsg language)
    | some posList =>
      let negative_count := count_keywords text negList
      let positive_count := count_keywords text posList
      let quality_metrics := analyze_text_quality text
      let total_words := pyWordCount text
      let keyword_ratio : ℚ :=
        if total_words > 0 then
          ((positive_count : ℚ) - (negative_count : ℚ)) / (total_words : ℚ)
        else 0
      let combined_score : ℚ :=
        sentiment.compound * (2/5) + keyword_ratio * (2/5) +
          quality_metrics.sentence_length_score * (1/5)
      .ok { sentiment := sentiment,
            keyword_analysis :=
              { positive_count := positive_count,
                negative_count := negative_count,
                keyword_ratio := keyword_ratio },
            text_quality := quality_metrics,
            combined_score := combined_score }

/-- `get_summary`: the text itself when it has at most `word_count`
tokens, otherwise the first `word_count` tokens joined with `"..."`. -/
def get_summary (text : Str) (word_count : Nat) : Str :=
  let words := pyWords text
  if words.length ≤ word_count then text
  else joinSpace (words.take word_count) ++ str "..."

/-- `count_words`: `len(text.split())`. -/
def count_words (text : Str) : Nat := pyWordCount text

mutual
/-- A node of the parsed HTML tree produced by BeautifulSoup: an element
with a tag name, the (possibly empty) list of values of its `class`
attribute, and its children, or a text node. -/
inductive Node where
  | elem (tag : Str) (classes : List Str) (children : NodeList)
  | textNode (s : Str)
/-- A sequence of sibling HTML nodes. -/
inductive NodeList where
  | nil
  | cons (head : Node) (tail : NodeList)
end

/-- Concatenation of node lists. -/
def NodeList.append : NodeList → NodeList → NodeList
  | .nil, l => l
  | .cons n t, l => .cons n (t.append l)

mutual
/-- `soup([...]).decompose()`: remove every element (with its whole
subtree) whose tag is in `bad`. -/
def stripNode (bad : List Str) : Node → NodeList
  | .textNode s => .cons (.textNode s) .nil
  | .elem tag classes children =>
    if tag ∈ bad then .nil
    else .cons (.elem tag classes (stripList bad children)) .nil
/-- `stripNode` mapped over a node list. -/
def stripList (bad : List Str) : NodeList → NodeList
  | .nil => .nil
  | .cons n t => (stripNode bad n).append (stripList bad t)
end

mutual
/-- BeautifulSoup `get_text()`: concatenation of all text in the subtree. -/
def getTextNode : Node → Str
  | .textNode s => s
  | .elem _ _ children => getTextList children
/-- `getTextNode` concatenated over a node list. -/
def getTextList : NodeList → Str
  | .nil => []
  | .cons n t => getTextNode n ++ getTextList t
end

mutual
/-- BeautifulSoup `find_all` with a tag-and-class predicate: all matching
elements of the tree in document (pre-order) order. -/
def findAllNode (p : Str → List Str → Bool) : Node → List Node
  | .textNode _ => []
  | .elem tag classes children =>
    (if p tag classes then [Node.elem tag classes children] else []) ++
      findAllList p children
/-- `findAllNode` concatenated over a node list. -/
def findAllList (p : Str → List Str → Bool) : NodeList → List Node
  | .nil => []
  | .cons n t => findAllNode p n ++ findAllList p t
end

/-- The tag/class filter of the primary `find_all` in `scrape_and_analyze`:
tag in `p/article/section/div` and some class value matching the
case-insensitive regex `text|content|article|body` (substring search). -/
def isContentElement (tag : Str) (classes : List Str) : Bool :=
  (tag = str "p" || tag = str "article" || tag = str "section" || tag = str "div") &&
    classes.any (fun c =>
      let lc := pyLower c
      pyContains (str "text") lc || pyContains (str "content") lc ||
        pyContains (str "article") lc || pyContains (str "body") lc)

/-- The tags removed before extraction in `scrape_and_analyze`. -/
def UNWANTED_TAGS : List Str :=
  [str "script", str "style", str "nav", str "header", str "footer"]

/-- The extraction phase of `scrape_and_analyze`: decompose unwanted
elements, collect the class-matching content elements (falling back to
all `p` elements when there are none), join their stripped texts with
spaces, and normalize whitespace. -/
def extractText (doc : NodeList) : Str :=
  let cleaned := stripList UNWANTED_TAGS doc
  let candidates := findAllList isContentElement cleaned
  let text_elements :=
    if candidates.isEmpty then findAllList (fun tag _ => tag = str "p") cleaned
    else candidates
  let text := joinSpace (text_elements.map (fun e => pyStrip (getTextNode e)))
  joinSpace (pyWords text)

/-- One outcome of `session.get(url, ...)`: a response with a status code
and body text, or a raised transport exception. -/
inductive TransportResult where
  | resp (status : Nat) (text : Str)
  | exn (message : Str)

/-- The attempt loop of `scrape_with_retry`, indexed by remaining attempts
and the number of transport calls made so far.  A 200 response returns its
text (after one extra request when accept-buttons are detected in it); a
non-200 response falls through to the next attempt; a transport exception
is re-raised on the last attempt and otherwise retried after a sleep.
Returns the outcome together with the total transport call count. -/
def scrapeLoop (transport : Nat → TransportResult) (findAccept : Str → Bool) :
    Nat → Nat → Except Str (Option Str) × Nat
  | 0, calls => (.ok none, calls)
  | remaining + 1, calls =>
    match transport calls with
    | .exn e =>
      if remaining = 0 then (.error e, calls + 1)
      else scrapeLoop transport findAccept remaining (calls + 1)
    | .resp status text =>
      if status = 200 then
        if findAccept text then
          match transport (calls + 1) with
          | .exn e =>
            if remaining = 0 then (.error e, calls + 2)
            else scrapeLoop transport findAccept remaining (calls + 2)
          | .resp _ text2 => (.ok (some text2), calls + 2)
        else (.ok (some text), calls + 1)
      else scrapeLoop transport findAccept remaining (calls + 1)

/-- `scrape_with_retry(url, max_retries=3)`, over an abstract transport;
also reports how many transport requests were made. -/
def scrape_with_retry (transport : Nat → TransportResult)
    (findAccept : Str → Bool) (max_retries : Nat) :
    Except Str (Option Str) × Nat :=
  scrapeLoop transport findAccept max_retries 0

/-- The external collaborators of the orchestrator: the HTTP transport
(per-call outcomes), the accept-button detector of `scrape_with_retry`,
the HTML parser, the VADER sentiment analyzer, and `urlparse(...).netloc`. -/
structure Env where
  transport : Nat → TransportResult
  findAccept : Str → Bool
  parse : Str → NodeList
  sia : Str → SentimentScores
  urlNetloc : Str → Str

/-- The per-URL analysis record returned by `scrape_and_analyze`. -/
structure AnalysisRecord where
  domain : Str
  summary : Str
  sentiment : ℚ
  sentiment_detailed : SentimentScores
  keyword_analysis : KeywordAnalysis
  text_quality : TextQuality
  combined_score : ℚ
  content_length : Nat
  word_count : Nat
  success : Bool
deriving Repr, DecidableEq

/-- The success-record construction at the end of the `try` body of
`scrape_and_analyze` (the returned dict with `success: True`). -/
def successRecord (env : Env) (url text : Str)
    (analysis_result : ContentAnalysis) : AnalysisRecord :=
  { domain := env.urlNetloc url,
    summary := get_summary text 100,
    sentiment := analysis_result.sentiment.compound,
    sentiment_detailed := analysis_result.sentiment,
    keyword_analysis := analysis_result.keyword_analysis,
    text_quality := analysis_result.text_quality,
    combined_score := analysis_result.combined_score,
    content_length := text.length,
    word_count := count_words text,
    success := true }

/-- The `try` body of `scrape_and_analyze`: fetch, check content is
non-empty (Python falsiness catches both `None` and `""`), parse,
extract, analyze, and build the success record.  Any raised exception is
the `error` case. -/
def pipeline (env : Env) (url language : Str) : Except Str AnalysisRecord :=
  match (scrape_with_retry env.transport env.findAccept 3).1 with
  | .error e => .error e
  | .ok contentOpt =>
    match contentOpt with
    | none => .error (str "Could not retrieve content")
    | some content =>
      if content = [] then .error (str "Could not retrieve content")
      else
        match analyze_content env.sia language (extractText (env.parse content)) with
        | .error e => .error e
        | .ok analysis_result =>
          .ok (successRecord env url (extractText (env.parse content)) analysis_result)

/-- The `except` branch of `scrape_and_analyze`: the uniform failure
record with the neutral defaults of the source. -/
def failureRecord (env : Env) (url : Str) (e : Str) : AnalysisRecord :=
  { domain := env.urlNetloc url,
    summary := str "Error: " ++ e,
    sentiment := 0,
    sentiment_detailed := { compound := 0, pos := 0, neu := 1, neg := 0 },
    keyword_analysis := { positive_count := 0, negative_count := 0, keyword_ratio := 0 },
    text_quality := { avg_sentence_length := 0, sentence_length_score := 0 },
    combined_score := 0,
    content_length := 0,
    word_count := 0,
    success := false }

/-- `scrape_and_analyze(url, language)`: the `try` body, with every raised
exception converted to the uniform failure record. -/
def scrape_and_analyze (env : Env) (url language : Str) : AnalysisRecord :=
  match pipeline env url language with
  | .ok record => record
  | .error e => failureRecord env url e

/-- Modelled from the spec (§4.3, sentence segmentation): split text on
all three boundary characters `.`/`!`/`?`.  This follows the spec's words,
not the source, and exists only to be compared with `sentencesOf`. -/
def splitSentencesSpec (text : Str) : List Str :=
  splitPred (fun c => c = '.' || c = '!' || c = '?') text

/-- Modelled from the spec (§4.3): mean whitespace-token count per
spec-segmented sentence, for comparison with the source's average. -/
def avgSentenceLengthSpec (text : Str) : ℚ :=
  ((splitSentencesSpec text).map (fun s => (pyWordCount s : ℚ))).sum /
    ((splitSentencesSpec text).length : ℚ)

/-- A transport whose every request yields an HTTP 404 response. -/
def t404 : Nat → TransportResult := fun _ => .resp 404 []

/-- A transport whose every request raises a connection error. -/
def tBoom : Nat → TransportResult := fun _ => .exn (str "boom")

/-- An accept-button detector that never fires. -/
def noAccept : Str → Bool := fun _ => false

/-- A sentiment analyzer returning a fixed result. -/
def constSia (s : SentimentScores) : Str → SentimentScores := fun _ => s

/-- An environment whose fetches always fail at the transport level. -/
def envFail : Env :=
  { transport := tBoom, findAccept := noAccept,
    parse := fun _ => .nil, sia := constSia ⟨0, 0, 1, 0⟩,
    urlNetloc := fun _ => [] }

/-- The §8 empty-page scenario body. -/
def emptyPageBody : Str := str "<html><body></body></html>"

/-- The parse tree BeautifulSoup produces for the empty-page body:
an `html` element containing an empty `body` element. -/
def emptyPageTree : NodeList :=
  .cons (.elem (str "html") [] (.cons (.elem (str "body") [] .nil) .nil)) .nil

/-- An environment that always serves the empty page successfully. -/
def envEmptyPage : Env :=
  { transport := fun _ => .resp 200 emptyPageBody,
    findAccept := noAccept,
    parse := fun _ => emptyPageTree,
    sia := constSia ⟨0, 0, 1, 0⟩,
    urlNetloc := fun _ => [] }

lemma splitPred_ne_nil (p : Char → Bool) (l : Str) : splitPred p l ≠ [] := by
  cases l with
  | nil => simp [splitPred]
  | cons c rest =>
    simp only [splitPred]
    split
    · simp
    · split <;> simp

lemma sentencesOf_ne_nil (text : Str) : sentencesOf text ≠ [] :=
  splitPred_ne_nil _ text

lemma analyze_text_quality_score_eq (text : Str) :
    (analyze_text_quality text).sentence_length_score =
      if (analyze_text_quality text).avg_sentence_length < 5 then 1/2
      else if (analyze_text_quality text).avg_sentence_length > 40 then 7/10
      else 1 := by
  simp only [analyze_text_quality]

lemma quality_score_mem (text : Str) :
    (analyze_text_quality text).sentence_length_score = 1/2 ∨
    (analyze_text_quality text).sentence_length_score = 7/10 ∨
    (analyze_text_quality text).sentence_length_score = 1 := by
  rw [analyze_text_quality_score_eq]
  split_ifs <;> simp

lemma analyze_content_ok_shape (sia : Str → SentimentScores)
    (language text : Str) (r : ContentAnalysis)
    (h : analyze_content sia language text = .ok r) :
    r.text_quality = analyze_text_quality text ∧ r.sentiment = sia text := by
  unfold analyze_content at h
  split at h
  · exact absurd h (by simp)
  · split at h
    · exact absurd h (by simp)
    · injection h with h
      subst h
      exact ⟨rfl, rfl⟩

lemma pipeline_ok_shape (env : Env) (url language : Str) (r : AnalysisRecord)
    (h : pipeline env url language = .ok r) :
    r.success = true ∧ ∃ text, r.text_quality = analyze_text_quality text := by
  unfold pipeline at h
  split at h
  · exact absurd h (by simp)
  · split at h
    · exact absurd h (by simp)
    · split at h
      · exact absurd h (by simp)
      · split at h
        · exact absurd h (by simp)
        · rename_i analysis_result hca
          injection h with h
          subst h
          rename_i content heq hne xo
          refine ⟨rfl, extractText (env.parse content), ?_⟩
          simp only [successRecord]
          exact (analyze_content_ok_shape _ _ _ _ hca).1

/-- C1: for every environment, URL, and language, `scrape_and_analyze`
returns exactly one well-formed `AnalysisRecord` (it is a total function
into `AnalysisRecord`), and every internal failure of the `try` body is
converted into the uniform failure record with `success = false` whose
`summary` is the human-readable message `"Error: " ++ e`; a success of the
body is returned unchanged with `success = true`. -/
theorem scrape_and_analyze_total_coverage (env : Env) (url language : Str) :
    (∃ record, pipeline env url language = .ok record ∧
       scrape_and_analyze env url language = record ∧ record.success = true) ∨
    (∃ e, pipeline env url language = .error e ∧
       scrape_and_analyze env url language = failureRecord env url e ∧
       (scrape_and_analyze env url language).success = false ∧
       (scrape_and_analyze env url language).summary = str "Error: " ++ e) := by
  cases h : pipeline env url language with
  | ok record =>
    left
    exact ⟨record, rfl, by simp [scrape_and_analyze, h],
      (pipeline_ok_shape env url language record h).1⟩
  | error e =>
    right
    refine ⟨e, rfl, by simp [scrape_and_analyze, h], ?_, ?_⟩ <;>
      simp [scrape_and_analyze, h, failureRecord]

/-- C2: every record returned with `success = false` has
`combined_score = 0`, the neutral default detailed sentiment
`{compound: 0, pos: 0, neu: 1, neg: 0}`, and a summary of the form
`"Error: " ++ e` for the error `e` the try body raised (an error
description, not page content). -/
theorem failure_defaults (env : Env) (url language : Str)
    (h : (scrape_and_analyze env url language).success = false) :
    (scrape_and_analyze env url language).combined_score = 0 ∧
    (scrape_and_analyze env url language).sentiment_detailed =
      { compound := 0, pos := 0, neu := 1, neg := 0 } ∧
    ∃ e, pipeline env url language = .error e ∧
      (scrape_and_analyze env url language).summary = str "Error: " ++ e := by
  cases hp : pipeline env url language with
  | ok record =>
    exfalso
    have hs := (pipeline_ok_shape env url language record hp).1
    simp [scrape_and_analyze, hp, hs] at h
  | error e =>
    refine ⟨?_, ?_, e, rfl, ?_⟩ <;> simp [scrape_and_analyze, hp, failureRecord]

/-- Witness for C2 at a concrete always-failing environment. -/
theorem failure_defaults_witness :
    (scrape_and_analyze envFail (str "u") (str "en")).success = false ∧
    (scrape_and_analyze envFail (str "u") (str "en")).combined_score = 0 ∧
    (scrape_and_analyze envFail (str "u") (str "en")).sentiment_detailed =
      { compound := 0, pos := 0, neu := 1, neg := 0 } :=
  ⟨by decide,
   (failure_defaults envFail (str "u") (str "en") (by decide)).1,
   (failure_defaults envFail (str "u") (str "en") (by decide)).2.1⟩

/-- C3: for every analyzed text (whenever the language's keyword lists
exist, so the analyzer returns), the combined score is exactly
`0.4 · compound + 0.4 · keyword_ratio + 0.2 · sentence_length_score`,
with no clamping of the result. -/
theorem combined_score_formula (sia : Str → SentimentScores)
    (language text : Str) (negList posList : List Str)
    (hn : NEGATIVE_KEYWORDS language = some negList)
    (hp : POSITIVE_KEYWORDS language = some posList) :
    ∃ r, analyze_content sia language text = .ok r ∧
      r.combined_score = (sia text).compound * (2/5) +
        r.keyword_analysis.keyword_ratio * (2/5) +
        (analyze_text_quality text).sentence_length_score * (1/5) := by
  unfold analyze_content
  rw [hn, hp]
  exact ⟨_, rfl, rfl⟩

/-- Witness for C3: English analysis of `"goodgoodgood"`, whose keyword
ratio 3 drives the combined score to `13/10`, above 1 (no clamping). -/
theorem combined_score_formula_witness :
    ∃ r, analyze_content (constSia ⟨0, 0, 1, 0⟩) (str "en") (str "goodgoodgood") = .ok r ∧
      r.combined_score = (constSia ⟨0, 0, 1, 0⟩ (str "goodgoodgood")).compound * (2/5) +
        r.keyword_analysis.keyword_ratio * (2/5) +
        (analyze_text_quality (str "goodgoodgood")).sentence_length_score * (1/5) :=
  combined_score_formula (constSia ⟨0, 0, 1, 0⟩) (str "en") (str "goodgoodgood")
    [str "error", str "mistake", str "failure", str "bad", str "wrong",
     str "poorly", str "negative", str "unfortunately", str "problem", str "issue"]
    [str "success", str "excellent", str "good", str "best", str "positive",
     str "perfect", str "recommend", str "great", str "innovative", str "impressive"]
    (by decide) (by decide)

/-- Counterexample to C4 as stated: for empty text the source does NOT
take the non-dividing guard branch of
`... if sentences else 0` — `''.split('.')` is `['']`, a non-empty list,
so the guard is true and the function divides the token total 0 by the
segment count 1.  The resulting values (average 0, score 0.5) still hold,
but not via the claimed branch. -/
theorem quality_empty_guard_counterexample :
    sentencesOf [] = [[]] ∧ sentencesOf [] ≠ [] ∧
    analyze_text_quality [] = ⟨0, 1/2⟩ := by
  refine ⟨by decide, by decide, ?_⟩
  norm_num [analyze_text_quality, sentencesOf, splitDot, splitPred,
    pyWordCount, pyWords, isPyWhitespace]

/-- C4 (amended): the bucket thresholds are strict — average sentence
length below 5 gives score 0.5, above 40 gives 0.7, and the whole closed
interval [5, 40] (including exactly 5 and exactly 40) gives 1.0.  For
empty text the result is average 0 and score 0.5, but it arises by
dividing by the single empty segment that `split('.')` returns: the
split-result list is never empty, so the non-dividing guard branch is
unreachable. -/
theorem quality_bucket_thresholds (text : Str) :
    ((analyze_text_quality text).avg_sentence_length < 5 →
      (analyze_text_quality text).sentence_length_score = 1/2) ∧
    (40 < (analyze_text_quality text).avg_sentence_length →
      (analyze_text_quality text).sentence_length_score = 7/10) ∧
    (5 ≤ (analyze_text_quality text).avg_sentence_length →
      (analyze_text_quality text).avg_sentence_length ≤ 40 →
      (analyze_text_quality text).sentence_length_score = 1) ∧
    sentencesOf text ≠ [] ∧
    analyze_text_quality [] = ⟨0, 1/2⟩ := by
  refine ⟨?_, ?_, ?_, sentencesOf_ne_nil text, ?_⟩
  · intro h
    rw [analyze_text_quality_score_eq, if_pos h]
  · intro h
    rw [analyze_text_quality_score_eq, if_neg (by linarith), if_pos h]
  · intro h5 h40
    rw [analyze_text_quality_score_eq, if_neg (by linarith), if_neg (by linarith)]
  · norm_num [analyze_text_quality, sentencesOf, splitDot, splitPred,
      pyWordCount, pyWords, isPyWhitespace]

/-- Witness for C4 (amended): a text whose average sentence length is
exactly 5 lands in the 1.0 bucket. -/
theorem quality_bucket_thresholds_witness :
    (analyze_text_quality (str "a b c d e")).sentence_length_score = 1 := by
  have havg : (analyze_text_quality (str "a b c d e")).avg_sentence_length = 5 := by
    have h1 : sentencesOf (str "a b c d e") = [str "a b c d e"] := by decide
    have h2 : pyWordCount (str "a b c d e") = 5 := by decide
    simp [analyze_text_quality, h1, h2]
  exact (quality_bucket_thresholds (str "a b c d e")).2.2.1
    (by rw [havg]) (by rw [havg]; norm_num)

/-- C5: for every text and supported language (`en` or `da`), the
analyzer's keyword counts are the case-insensitive non-overlapping
substring-occurrence counts of the fixed per-language keyword lists, and
`keyword_ratio` is `(positive_count − negative_count) / word_count` when
`word_count > 0` and `0` when `word_count = 0`. -/
theorem keyword_ratio_formula (sia : Str → SentimentScores)
    (language text : Str)
    (h : language = str "en" ∨ language = str "da") :
    ∃ negList posList r,
      NEGATIVE_KEYWORDS language = some negList ∧
      POSITIVE_KEYWORDS language = some posList ∧
      analyze_content sia language text = .ok r ∧
      r.keyword_analysis.positive_count = count_keywords text posList ∧
      r.keyword_analysis.negative_count = count_keywords text negList ∧
      count_keywords text posList =
        ((posList.map (fun keyword => pyCount (pyLower keyword) (pyLower text))).sum) ∧
      count_keywords text negList =
        ((negList.map (fun keyword => pyCount (pyLower keyword) (pyLower text))).sum) ∧
      (0 < pyWordCount text →
        r.keyword_analysis.keyword_ratio =
          ((count_keywords text posList : ℚ) - (count_keywords text negList : ℚ)) /
            (pyWordCount text : ℚ)) ∧
      (pyWordCount text = 0 → r.keyword_analysis.keyword_ratio = 0) := by
  have hratio : ∀ negList posList,
      NEGATIVE_KEYWORDS language = some negList →
      POSITIVE_KEYWORDS language = some posList →
      ∃ r, analyze_content sia language text = .ok r ∧
        r.keyword_analysis.positive_count = count_keywords text posList ∧
        r.keyword_analysis.negative_count = count_keywords text negList ∧
        (0 < pyWordCount text →
          r.keyword_analysis.keyword_ratio =
            ((count_keywords text posList : ℚ) - (count_keywords text negList : ℚ)) /
              (pyWordCount text : ℚ)) ∧
        (pyWordCount text = 0 → r.keyword_analysis.keyword_ratio = 0) := by
    intro negList posList hn hp
    unfold analyze_content
    rw [hn, hp]
    refine ⟨_, rfl, rfl, rfl, ?_, ?_⟩
    · intro hw
      simp only [if_pos hw]
    · intro hw
      simp only [hw]
      norm_num
  rcases h with h | h <;> subst h
  · obtain ⟨r, h1, h2, h3, h4, h5⟩ := hratio _ _ rfl rfl
    exact ⟨_, _, r, rfl, rfl, h1, h2, h3, rfl, rfl, h4, h5⟩
  · obtain ⟨r, h1, h2, h3, h4, h5⟩ := hratio _ _ rfl rfl
    exact ⟨_, _, r, rfl, rfl, h1, h2, h3, rfl, rfl, h4, h5⟩

/-- Witness for C5 at English text containing positive and negative
keywords. -/
theorem keyword_ratio_formula_witness :
    ∃ negList posList r,
      NEGATIVE_KEYWORDS (str "en") = some negList ∧
      POSITIVE_KEYWORDS (str "en") = some posList ∧
      analyze_content (constSia ⟨0, 0, 1, 0⟩) (str "en") (str "good bad bad") = .ok r ∧
      r.keyword_analysis.positive_count = count_keywords (str "good bad bad") posList ∧
      r.keyword_analysis.negative_count = count_keywords (str "good bad bad") negList ∧
      count_keywords (str "good bad bad") posList =
        ((posList.map (fun keyword =>
          pyCount (pyLower keyword) (pyLower (str "good bad bad")))).sum) ∧
      count_keywords (str "good bad bad") negList =
        ((negList.map (fun keyword =>
          pyCount (pyLower keyword) (pyLower (str "good bad bad")))).sum) ∧
      (0 < pyWordCount (str "good bad bad") →
        r.keyword_analysis.keyword_ratio =
          ((count_keywords (str "good bad bad") posList : ℚ) -
            (count_keywords (str "good bad bad") negList : ℚ)) /
            (pyWordCount (str "good bad bad") : ℚ)) ∧
      (pyWordCount (str "good bad bad") = 0 →
        r.keyword_analysis.keyword_ratio = 0) :=
  keyword_ratio_formula (constSia ⟨0, 0, 1, 0⟩) (str "en") (str "good bad bad")
    (Or.inl rfl)

lemma scrapeLoop_const_bad (transport : Nat → TransportResult)
    (findAccept : Str → Bool) (status : Nat) (text : Str)
    (hs : ¬ status = 200) (hall : ∀ n, transport n = .resp status text) :
    ∀ r c, scrapeLoop transport findAccept r c = (.ok none, c + r) := by
  intro r
  induction r with
  | zero => intro c; simp [scrapeLoop]
  | succ k ih =>
    intro c
    rw [scrapeLoop, hall c]
    simp only [if_neg hs]
    rw [ih (c + 1)]
    congr 1
    omega

lemma scrapeLoop_const_exn (transport : Nat → TransportResult)
    (findAccept : Str → Bool) (e : Str)
    (hall : ∀ n, transport n = .exn e) :
    ∀ r c, 0 < r → scrapeLoop transport findAccept r c = (.error e, c + r) := by
  intro r
  induction r with
  | zero => intro c h; omega
  | succ k ih =>
    intro c _
    rw [scrapeLoop, hall c]
    by_cases hk : k = 0
    · subst hk; simp
    · simp only [if_neg hk]
      rw [ih (c + 1) (by omega)]
      congr 1
      omega

/-- Counterexample to C6: against a transport that always answers
HTTP 404, `scrape_with_retry` makes 3 requests — not the claimed single
request — and returns `None` (no typed `HttpStatus` failure carrying the
status): non-200 statuses fall through the 200-check into the next loop
iteration, so they ARE retried. -/
theorem http_status_retried_counterexample :
    scrape_with_retry t404 noAccept 3 = (.ok none, 3) ∧ (3 : Nat) ≠ 1 :=
  ⟨rfl, by decide⟩

/-- C6 (amended): a non-200 status is retried exactly like a transport
failure: the fetcher makes all 3 requests and then returns `None`, with
no typed `HttpStatus` failure (the orchestrator later turns the `None`
into a generic "Could not retrieve content" error).  A transport-level
exception is also retried up to the 3 attempts (with a fixed 1-second
sleep between attempts), the final exception being re-raised. -/
theorem scrape_retry_policy (transport : Nat → TransportResult)
    (findAccept : Str → Bool) :
    (∀ status text, status ≠ 200 → (∀ n, transport n = .resp status text) →
      scrape_with_retry transport findAccept 3 = (.ok none, 3)) ∧
    (∀ e, (∀ n, transport n = .exn e) →
      scrape_with_retry transport findAccept 3 = (.error e, 3)) := by
  constructor
  · intro status text hs hall
    unfold scrape_with_retry
    rw [scrapeLoop_const_bad transport findAccept status text hs hall 3 0]
  · intro e hall
    unfold scrape_with_retry
    rw [scrapeLoop_const_exn transport findAccept e hall 3 0 (by omega)]

/-- Witness for C6 (amended) at the concrete 404 and always-raising
transports. -/
theorem scrape_retry_policy_witness :
    scrape_with_retry t404 noAccept 3 = (.ok none, 3) ∧
    scrape_with_retry tBoom noAccept 3 = (.error (str "boom"), 3) :=
  ⟨(scrape_retry_policy t404 noAccept).1 404 [] (by decide) (fun _ => rfl),
   (scrape_retry_policy tBoom noAccept).2 (str "boom") (fun _ => rfl)⟩

/-- Counterexample to C7: on `"x! y"` the source's segmentation (split on
`'.'` only) yields one segment with average token count 2, while the
claimed three-character segmentation yields two segments with average 1 —
the two averages differ, so `'!'` (and likewise `'?'`) is not a boundary
in the code. -/
theorem sentence_split_counterexample :
    sentencesOf (str "x! y") = [str "x! y"] ∧
    splitSentencesSpec (str "x! y") = [str "x", str " y"] ∧
    (analyze_text_quality (str "x! y")).avg_sentence_length = 2 ∧
    avgSentenceLengthSpec (str "x! y") = 1 ∧
    (analyze_text_quality (str "x! y")).avg_sentence_length ≠
      avgSentenceLengthSpec (str "x! y") := by
  have h1 : sentencesOf (str "x! y") = [str "x! y"] := by decide
  have h2 : pyWordCount (str "x! y") = 2 := by decide
  have h3 : splitSentencesSpec (str "x! y") = [str "x", str " y"] := by decide
  have h4 : pyWordCount (str "x") = 1 := by decide
  have h5 : pyWordCount (str " y") = 1 := by decide
  have hc : (analyze_text_quality (str "x! y")).avg_sentence_length = 2 := by
    simp [analyze_text_quality, h1, h2]
  have hs : avgSentenceLengthSpec (str "x! y") = 1 := by
    simp [avgSentenceLengthSpec, h3, h4, h5]
  refine ⟨h1, h3, hc, hs, ?_⟩
  rw [hc, hs]
  norm_num

/-- C7 (amended): sentence segmentation for the quality metric splits the
text on `'.'` only — `'!'` and `'?'` are not boundaries — and the average
sentence length is the mean whitespace-token count per `'.'`-delimited
segment. -/
theorem sentence_split_dot_only (text : Str) :
    sentencesOf text = splitPred (fun c => c = '.') text ∧
    (analyze_text_quality text).avg_sentence_length =
      ((sentencesOf text).map (fun s => (pyWordCount s : ℚ))).sum /
        ((sentencesOf text).length : ℚ) ∧
    sentencesOf (str "a!b?c") = [str "a!b?c"] := by
  refine ⟨rfl, ?_, by decide⟩
  simp only [analyze_text_quality]
  rw [if_pos (sentencesOf_ne_nil text)]

lemma analyze_text_quality_nil : analyze_text_quality [] = ⟨0, 1/2⟩ := by
  norm_num [analyze_text_quality, sentencesOf, splitDot, splitPred,
    pyWordCount, pyWords, isPyWhitespace]

lemma scrapeLoop_first_ok (transport : Nat → TransportResult)
    (findAccept : Str → Bool) (r c : Nat) (text : Str)
    (h200 : transport c = .resp 200 text) (hacc : findAccept text = false) :
    scrapeLoop transport findAccept (r + 1) c = (.ok (some text), c + 1) := by
  rw [scrapeLoop, h200]
  simp [hacc]

lemma analyze_content_eq (sia : Str → SentimentScores) (language text : Str)
    (negList posList : List Str)
    (hn : NEGATIVE_KEYWORDS language = some negList)
    (hp : POSITIVE_KEYWORDS language = some posList) :
    analyze_content sia language text = .ok
      { sentiment := sia text,
        keyword_analysis :=
          ⟨count_keywords text posList, count_keywords text negList,
            if pyWordCount text > 0 then
              ((count_keywords text posList : ℚ) - (count_keywords text negList : ℚ)) /
                (pyWordCount text : ℚ)
            else 0⟩,
        text_quality := analyze_text_quality text,
        combined_score := (sia text).compound * (2/5) +
          (if pyWordCount text > 0 then
              ((count_keywords text posList : ℚ) - (count_keywords text negList : ℚ)) /
                (pyWordCount text : ℚ)
            else 0) * (2/5) +
          (analyze_text_quality text).sentence_length_score * (1/5) } := by
  unfold analyze_content
  rw [hn, hp]

lemma analyze_content_empty_en (sia : Str → SentimentScores) :
    analyze_content sia (str "en") [] = .ok
      { sentiment := sia [],
        keyword_analysis := ⟨0, 0, 0⟩,
        text_quality := ⟨0, 1/2⟩,
        combined_score := (sia []).compound * (2/5) + 0 * (2/5) + (1/2) * (1/5) } := by
  rw [analyze_content_eq sia (str "en") []
    [str "error", str "mistake", str "failure", str "bad", str "wrong",
     str "poorly", str "negative", str "unfortunately", str "problem", str "issue"]
    [str "success", str "excellent", str "good", str "best", str "positive",
     str "perfect", str "recommend", str "great", str "innovative", str "impressive"]
    (by decide) (by decide)]
  have hkp : count_keywords []
      [str "success", str "excellent", str "good", str "best", str "positive",
       str "perfect", str "recommend", str "great", str "innovative", str "impressive"] = 0 := by
    decide
  have hkn : count_keywords []
      [str "error", str "mistake", str "failure", str "bad", str "wrong",
       str "poorly", str "negative", str "unfortunately", str "problem", str "issue"] = 0 := by
    decide
  have hw : pyWordCount ([] : Str) = 0 := by decide
  rw [hkp, hkn, hw, analyze_text_quality_nil]
  norm_num

/-- C8: when the fetched page body is `<html><body></body></html>` (no
paragraphs, so the parse tree is an `html` element holding an empty
`body`), the pipeline yields a SUCCESS record: extracted text is empty,
`word_count = 0`, `content_length = 0`, the summary is the empty string,
and `combined_score = 0.4·0 + 0.4·0 + 0.2·0.5 = 0.10`; zero extractable
text is never treated as a failure.  (VADER's compound score on empty
text is 0, stated here as a hypothesis on the external analyzer.) -/
theorem empty_page_scenario (env : Env) (url : Str)
    (htr : env.transport 0 = .resp 200 emptyPageBody)
    (hac : env.findAccept emptyPageBody = false)
    (hparse : env.parse emptyPageBody = emptyPageTree)
    (hsia : (env.sia []).compound = 0) :
    (scrape_and_analyze env url (str "en")).success = true ∧
    (scrape_and_analyze env url (str "en")).word_count = 0 ∧
    (scrape_and_analyze env url (str "en")).content_length = 0 ∧
    (scrape_and_analyze env url (str "en")).summary = [] ∧
    (scrape_and_analyze env url (str "en")).combined_score = 1/10 := by
  have hf1 : (scrape_with_retry env.transport env.findAccept 3).1 =
      .ok (some emptyPageBody) := by
    unfold scrape_with_retry
    rw [scrapeLoop_first_ok env.transport env.findAccept 2 0 emptyPageBody htr hac]
  have hbody : ¬ emptyPageBody = [] := by decide
  have hext : extractText emptyPageTree = [] := by decide
  have hpipe : pipeline env url (str "en") =
      .ok (successRecord env url []
        { sentiment := env.sia [],
          keyword_analysis := ⟨0, 0, 0⟩,
          text_quality := ⟨0, 1/2⟩,
          combined_score := (env.sia []).compound * (2/5) + 0 * (2/5) + (1/2) * (1/5) }) := by
    unfold pipeline
    rw [hf1]
    simp only [if_neg hbody, hparse, hext, analyze_content_empty_en]
  have hrec : scrape_and_analyze env url (str "en") =
      successRecord env url []
        { sentiment := env.sia [],
          keyword_analysis := ⟨0, 0, 0⟩,
          text_quality := ⟨0, 1/2⟩,
          combined_score := (env.sia []).compound * (2/5) + 0 * (2/5) + (1/2) * (1/5) } := by
    rw [scrape_and_analyze, hpipe]
  rw [hrec]
  refine ⟨rfl, rfl, rfl, rfl, ?_⟩
  show (env.sia []).compound * (2/5) + 0 * (2/5) + (1/2) * (1/5) = 1/10
  rw [hsia]
  norm_num

/-- Witness for C8 at a concrete environment serving the empty page. -/
theorem empty_page_scenario_witness :
    (scrape_and_analyze envEmptyPage (str "u") (str "en")).success = true ∧
    (scrape_and_analyze envEmptyPage (str "u") (str "en")).word_count = 0 ∧
    (scrape_and_analyze envEmptyPage (str "u") (str "en")).combined_score = 1/10 := by
  have h := empty_page_scenario envEmptyPage (str "u") rfl rfl rfl rfl
  exact ⟨h.1, h.2.1, h.2.2.2.2⟩

/-- Counterexample to C9: a failure record (here: a transport that always
raises) carries `sentence_length_score = 0`, which is NOT in the claimed
three-value set {0.5, 0.7, 1.0} — the failure default of the source sets
`text_quality` to `{avg_sentence_length: 0, sentence_length_score: 0}`. -/
theorem failure_quality_score_counterexample :
    (scrape_and_analyze envFail (str "u") (str "en")).text_quality.sentence_length_score = 0 ∧
    ¬ ((scrape_and_analyze envFail (str "u") (str "en")).text_quality.sentence_length_score = 1/2 ∨
       (scrape_and_analyze envFail (str "u") (str "en")).text_quality.sentence_length_score = 7/10 ∨
       (scrape_and_analyze envFail (str "u") (str "en")).text_quality.sentence_length_score = 1) := by
  have h : (scrape_and_analyze envFail (str "u") (str "en")).text_quality.sentence_length_score
      = 0 := rfl
  refine ⟨h, ?_⟩
  rw [h]
  norm_num

/-- C9 (amended): in every record the pipeline produces with
`success = true` the text-quality score lies in {0.5, 0.7, 1.0}; in every
record with `success = false` it is the placeholder 0 from the failure
default, not a member of that set. -/
theorem quality_score_range (env : Env) (url language : Str) :
    ((scrape_and_analyze env url language).success = true →
      (scrape_and_analyze env url language).text_quality.sentence_length_score = 1/2 ∨
      (scrape_and_analyze env url language).text_quality.sentence_length_score = 7/10 ∨
      (scrape_and_analyze env url language).text_quality.sentence_length_score = 1) ∧
    ((scrape_and_analyze env url language).success = false →
      (scrape_and_analyze env url language).text_quality.sentence_length_score = 0) := by
  cases hp : pipeline env url language with
  | ok record =>
    have hrec : scrape_and_analyze env url language = record := by
      simp [scrape_and_analyze, hp]
    obtain ⟨hs, text, hq⟩ := pipeline_ok_shape env url language record hp
    constructor
    · intro _
      rw [hrec, hq]
      exact quality_score_mem text
    · intro hfalse
      rw [hrec, hs] at hfalse
      exact absurd hfalse (by simp)
  | error e =>
    have hrec : scrape_and_analyze env url language = failureRecord env url e := by
      simp [scrape_and_analyze, hp]
    constructor
    · intro htrue
      rw [hrec] at htrue
      exact absurd htrue (by simp [failureRecord])
    · intro _
      rw [hrec]
      rfl

/-- Witness for C9 (amended): the success branch at the empty-page
environment and the failure branch at the always-failing environment. -/
theorem quality_score_range_witness :
    ((scrape_and_analyze envEmptyPage (str "u") (str "en")).text_quality.sentence_length_score = 1/2 ∨
     (scrape_and_analyze envEmptyPage (str "u") (str "en")).text_quality.sentence_length_score = 7/10 ∨
     (scrape_and_analyze envEmptyPage (str "u") (str "en")).text_quality.sentence_length_score = 1) ∧
    (scrape_and_analyze envFail (str "u") (str "en")).text_quality.sentence_length_score = 0 :=
  ⟨(quality_score_range envEmptyPage (str "u") (str "en")).1 (by decide),
   (quality_score_range envFail (str "u") (str "en")).2 (by decide)⟩

/-- C10: for any language code whose key is absent from the keyword
dictionaries (anything other than `"en"` and `"da"`), the orchestrator
returns `success = false` even when the fetch succeeds with non-empty
content — the `KeyError` from the keyword lookup is caught at the
orchestrator boundary, and the summary carries its message. -/
theorem unknown_language_failure (env : Env) (url language content : Str)
    (h1 : language ≠ str "en") (h2 : language ≠ str "da")
    (hfetch : (scrape_with_retry env.transport env.findAccept 3).1 = .ok (some content))
    (hne : ¬ content = []) :
    (scrape_and_analyze env url language).success = false ∧
    (scrape_and_analyze env url language).summary =
      str "Error: " ++ keyErrorMsg language := by
  have hneg : NEGATIVE_KEYWORDS language = none := by
    unfold NEGATIVE_KEYWORDS
    rw [if_neg h1, if_neg h2]
  have hca : analyze_content env.sia language (extractText (env.parse content)) =
      .error (keyErrorMsg language) := by
    unfold analyze_content
    rw [hneg]
  have hpipe : pipeline env url language = .error (keyErrorMsg language) := by
    unfold pipeline
    rw [hfetch]
    simp only [if_neg hne, hca]
  constructor <;> simp [scrape_and_analyze, hpipe, failureRecord]

/-- Witness for C10: fetching the empty page with language `"fr"` fails
with the KeyError summary. -/
theorem unknown_language_failure_witness :
    (scrape_and_analyze envEmptyPage (str "u") (str "fr")).success = false ∧
    (scrape_and_analyze envEmptyPage (str "u") (str "fr")).summary =
      str "Error: " ++ keyErrorMsg (str "fr") :=
  unknown_language_failure envEmptyPage (str "u") (str "fr") emptyPageBody
    (by decide) (by decide) rfl (by decide)
